import Mathlib

/-!
Verification of the PocketRelay client networking core.

Shallow embedding of the packet codec, QoS service, redirector service,
server lookup validation, telemetry cipher, HTTP proxy dispatch and the
public-address cache, translated from the Rust sources under src/.
Bytes are modelled as natural numbers; byte buffers as lists of naturals.
Network and clock effects are passed in explicitly as parameters.
-/

namespace PocketRelay

/-! ### Byte-level helpers -/

/-- Big-endian encoding of a 16-bit value, as written by put_u16 on the
value truncated to u16 (src/servers/packet.rs). -/
def u16_be (x : Nat) : List Nat := [x / 256 % 256, x % 256]

/-- Big-endian decoding of two bytes, as read by get_u16. -/
def be16 (hi lo : Nat) : Nat := hi * 256 + lo

/-! ### Packet codec (src/servers/packet.rs) -/

/-- The different types of packets (PacketType in src/servers/packet.rs). -/
inductive PacketType where
  | Request
  | Response
  | Notify
  | Error
deriving DecidableEq

/-- Wire discriminant of a packet type (the repr(u8) values). -/
def PacketType.to_u8 : PacketType → Nat
  | .Request => 0x00
  | .Response => 0x10
  | .Notify => 0x20
  | .Error => 0x30

/-- Conversion of a byte back into a packet type; unknown values map to
Request (the From u8 impl in src/servers/packet.rs). -/
def PacketType.from_u8 (value : Nat) : PacketType :=
  match value with
  | 0x00 => .Request
  | 0x10 => .Response
  | 0x20 => .Notify
  | 0x30 => .Error
  | _ => .Request

/-- Packet header (PacketHeader in src/servers/packet.rs). -/
structure PacketHeader where
  component : Nat
  command : Nat
  error : Nat
  ty : PacketType
  id : Nat
deriving DecidableEq

/-- Copy of the header with a new packet type (PacketHeader with_type). -/
def PacketHeader.with_type (h : PacketHeader) (ty : PacketType) : PacketHeader :=
  { component := h.component, command := h.command, error := h.error, ty := ty, id := h.id }

/-- Response header: same fields with type Response (PacketHeader response). -/
def PacketHeader.response (h : PacketHeader) : PacketHeader :=
  h.with_type .Response

/-- Serialise a header given the payload length (PacketHeader write).
When the length exceeds 0xFFFF the extended flag byte is 0x10 and the two
high bytes of the length are appended after the id. -/
def PacketHeader.write (h : PacketHeader) (length : Nat) : List Nat :=
  let is_extended := length > 0xFFFF
  u16_be length ++ u16_be h.component ++ u16_be h.command ++ u16_be h.error
    ++ [h.ty.to_u8]
    ++ [if is_extended then 0x10 else 0x00]
    ++ u16_be h.id
    ++ (if is_extended then
          [(length &&& 0xFF000000) >>> 24, (length &&& 0x00FF0000) >>> 16]
        else [])

/-- Parse a header from the front of a buffer (PacketHeader read), returning
the header, the payload length it announces, and the unconsumed remainder.
Requires 12 bytes, plus two more when the extended flag byte equals 0x10;
note the Rust code adds the extended quantity to the length without any
shift: length += get_u16(). -/
def PacketHeader.read : List Nat → Option ((PacketHeader × Nat) × List Nat)
  | l0 :: l1 :: c0 :: c1 :: d0 :: d1 :: e0 :: e1 :: t :: x :: i0 :: i1 :: rest =>
    let length := be16 l0 l1
    let header : PacketHeader :=
      { component := be16 c0 c1, command := be16 d0 d1, error := be16 e0 e1,
        ty := PacketType.from_u8 t, id := be16 i0 i1 }
    if x == 0x10 then
      match rest with
      | h0 :: h1 :: rest2 => some ((header, length + be16 h0 h1), rest2)
      | _ => none
    else
      some ((header, length), rest)
  | _ => none

/-- Packet: header plus payload bytes (Packet in src/servers/packet.rs). -/
structure Packet where
  header : PacketHeader
  contents : List Nat
deriving DecidableEq

/-- Parse a packet (Packet read): read the header, then require and split
off the announced number of payload bytes. -/
def Packet.read (src : List Nat) : Option (Packet × List Nat) :=
  match PacketHeader.read src with
  | none => none
  | some ((header, length), rest) =>
    if rest.length < length then none
    else some ({ header := header, contents := rest.take length }, rest.drop length)

/-- Serialise a packet (Packet write): header for the payload length, then
the payload bytes. -/
def Packet.write (p : Packet) : List Nat :=
  p.header.write p.contents.length ++ p.contents

/-- Codec decode step (PacketCodec decode in src/servers/packet.rs): run
Packet read on a clone of the buffer and commit the clone only when a
packet was produced; always returns Ok. The pair is the emitted packet
option and the buffer after the call. -/
def PacketCodec.decode (src : List Nat) : Except Unit (Option Packet × List Nat) :=
  match Packet.read src with
  | none => .ok (none, src)
  | some (packet, rest) => .ok (some packet, rest)

/-! ### QoS service and public-address cache (src/servers/qos.rs) -/

/-- IPv4 address as its four octets (std Ipv4Addr). -/
structure Ipv4Addr where
  o0 : Nat
  o1 : Nat
  o2 : Nat
  o3 : Nat
deriving DecidableEq

/-- Octets of the address in order (Ipv4Addr octets). -/
def Ipv4Addr.octets (ip : Ipv4Addr) : List Nat := [ip.o0, ip.o1, ip.o2, ip.o3]

/-- Loopback test: first octet 127 (std Ipv4Addr is_loopback). -/
def Ipv4Addr.is_loopback (ip : Ipv4Addr) : Bool := ip.o0 == 127

/-- RFC1918 private-range test (std Ipv4Addr is_private):
10.0.0.0/8, 172.16.0.0/12, 192.168.0.0/16. -/
def Ipv4Addr.is_private (ip : Ipv4Addr) : Bool :=
  ip.o0 == 10 || (ip.o0 == 172 && (16 ≤ ip.o1 && ip.o1 ≤ 31)) || (ip.o0 == 192 && ip.o1 == 168)

/-- IP address of a peer socket address (std IpAddr). -/
inductive IpAddr where
  | V4 (addr : Ipv4Addr)
  | V6
deriving DecidableEq

/-- Caching structure for the public address value (PublicAddrCache in
src/servers/qos.rs); expiry instants are modelled as natural numbers. -/
inductive PublicAddrCache where
  | Unset
  | Set (value : Ipv4Addr) (expires : Nat)
deriving DecidableEq

/-- Cache public address for 30 minutes (ADDR_CACHE_TIME in
src/servers/qos.rs), in seconds. -/
def ADDR_CACHE_TIME : Nat := 60 * 30

/-- The probe loop of public_address: try each address in order, keeping
the first successfully parsed value (the for loop with break in
src/servers/qos.rs lines 117-132). -/
def first_probe : List (Option Ipv4Addr) → Option Ipv4Addr
  | [] => none
  | some parsed :: _ => some parsed
  | none :: rest => first_probe rest

/-- Refresh path of public_address, entered under the write lock after a
cache miss or expiry. The outcome of each HTTP probe (GET, trim, parse as
IPv4) is passed in as one entry of probes; the local-interface fallback is
the local_ip parameter; now2 is the clock reading taken when the cache is
written. Returns the resolved value and the cache state after the call:
on total failure the cache is left unchanged and none is returned. -/
def public_address_refresh (cache : PublicAddrCache) (probes : List (Option Ipv4Addr))
    (local_ip : Option Ipv4Addr) (now2 : Nat) : Option Ipv4Addr × PublicAddrCache :=
  let value := match first_probe probes with
    | some v => some v
    | none => local_ip
  match value with
  | none => (none, cache)
  | some v => (some v, .Set v (now2 + ADDR_CACHE_TIME))

/-- public_address (src/servers/qos.rs): return the cached value when it
has not expired (now is strictly before the expiry instant); otherwise run
the refresh path. -/
def public_address (cache : PublicAddrCache) (now : Nat) (probes : List (Option Ipv4Addr))
    (local_ip : Option Ipv4Addr) (now2 : Nat) : Option Ipv4Addr × PublicAddrCache :=
  match cache with
  | .Set value expires =>
    if now < expires then (some value, .Set value expires)
    else public_address_refresh (.Set value expires) probes local_ip now2
  | .Unset => public_address_refresh .Unset probes local_ip now2

/-- get_address (src/servers/qos.rs): non-IPv4 peers yield none; loopback
and private peers use the resolved public address when one is available,
every other IPv4 peer (and a loopback or private peer when the public
lookup fails) is used directly. The result of the public_address call is
passed in as public_addr. -/
def get_address (public_addr : Option Ipv4Addr) (ip : IpAddr) : Option Ipv4Addr :=
  match ip with
  | .V4 value =>
    if value.is_loopback || value.is_private then
      match public_addr with
      | some p => some p
      | none => some value
    else
      some value
  | .V6 => none

/-- One iteration of the QoS datagram loop (start_server in
src/servers/qos.rs). buffer is the persistent 20-byte scratch buffer;
recv_from overwrites its first min(N, 20) bytes with the datagram bytes.
address is the advertised IPv4 already resolved via get_address, port the
peer source port. Returns the 30-byte reply and the buffer state after
the call. -/
def qos_handle (buffer : List Nat) (request : List Nat) (address : Ipv4Addr)
    (port : Nat) : List Nat × List Nat :=
  let buffer2 := request.take 20 ++ buffer.drop (min request.length 20)
  let output := buffer2 ++ address.octets ++ u16_be port ++ [0, 0, 0, 0]
  (output, buffer2)

/-! ### Telemetry cipher (src/servers/telemetry.rs) -/

/-- TLM3 key for decoding the TLM3 line (TLM3_KEY in
src/servers/telemetry.rs), as byte values. -/
def TLM3_KEY : List Nat := "The truth is back in style.".data.map Char.toNat

/-- Worker for xor_cipher: the input zipped against the cycled key. rem is
the unconsumed tail of the current key pass; when it runs out the cycle
restarts from key. A cycled empty key yields nothing, ending the zip. -/
def xor_cipher_go : List Nat → List Nat → List Nat → List Nat
  | [], _, _ => []
  | d :: ds, k :: ks, key => (d ^^^ k) % 0x80 :: xor_cipher_go ds ks key
  | _ :: _, [], [] => []
  | d :: ds, [], k :: ks => (d ^^^ k) % 0x80 :: xor_cipher_go ds ks (k :: ks)

/-- xor_cipher (src/servers/telemetry.rs): zip the input with the cycled
key and map each pair to (data xor key) mod 0x80. -/
def xor_cipher (input key : List Nat) : List Nat :=
  xor_cipher_go input key key

/-- Body of a TLM3 value (tlm3 in src/servers/telemetry.rs): the part of
the input after the first 0x2D dash byte, when one exists; this is the
slice that gets deciphered and handed to the unchecked UTF-8 conversion. -/
def tlm3_body : List Nat → Option (List Nat)
  | [] => none
  | b :: rest => if b == 0x2D then some rest else tlm3_body rest

/-- Pure-ASCII predicate: every byte below 0x80. Such a byte list is valid
UTF-8, which is what the unchecked string conversion in tlm3 relies on. -/
def valid_ascii (l : List Nat) : Prop := ∀ b ∈ l, b < 0x80

/-! ### Server lookup validation (src/api.rs, src/constants.rs) -/

/-- Identifier of a semver prerelease segment: numeric identifiers compare
numerically and order below alphanumeric ones (semver crate). -/
inductive PreId where
  | numeric (n : Nat)
  | alphanumeric (s : String)
deriving DecidableEq

/-- Strict order on prerelease identifiers (semver crate). -/
def PreId.lt : PreId → PreId → Bool
  | .numeric a, .numeric b => a < b
  | .numeric _, .alphanumeric _ => true
  | .alphanumeric _, .numeric _ => false
  | .alphanumeric a, .alphanumeric b => decide (a < b)

/-- Lexicographic strict order on prerelease identifier lists; a proper
head-equal shorter list orders first (semver crate). -/
def preLt : List PreId → List PreId → Bool
  | [], [] => false
  | [], _ :: _ => true
  | _ :: _, [] => false
  | a :: as, b :: bs => if a = b then preLt as bs else PreId.lt a b

/-- Semantic version (semver crate Version), build metadata omitted since
it never participates in ordering. -/
structure Version where
  major : Nat
  minor : Nat
  patch : Nat
  pre : List PreId
deriving DecidableEq

/-- Strict semver order: numeric triple first, then a release orders above
any prerelease of the same triple, then prerelease lists lexicographically
(semver crate Ord). -/
def versionLt (a b : Version) : Bool :=
  if a.major ≠ b.major then decide (a.major < b.major)
  else if a.minor ≠ b.minor then decide (a.minor < b.minor)
  else if a.patch ≠ b.patch then decide (a.patch < b.patch)
  else match a.pre.isEmpty, b.pre.isEmpty with
    | true, true => false
    | true, false => false
    | false, true => true
    | false, false => preLt a.pre b.pre

/-- The minimum server version supported by this client
(MIN_SERVER_VERSION in src/constants.rs): 0.5.0. -/
def MIN_SERVER_VERSION : Version := { major := 0, minor := 5, patch := 0, pre := [] }

/-- Server identifier constant (SERVER_IDENT in src/constants.rs). -/
def SERVER_IDENT : String := "POCKET_RELAY_SERVER"

/-- Parsed body of the lookup response (ServerDetails in src/api.rs);
ident is optional and defaults to none when absent. -/
structure ServerDetails where
  version : Version
  ident : Option String
deriving DecidableEq

/-- Result data of a successful lookup (LookupData in src/api.rs). -/
structure LookupData where
  scheme : String
  host : String
  version : Version
  port : Nat
deriving DecidableEq

/-- Errors that can occur while looking up a server (LookupError in
src/api.rs); the wrapped transport errors are dropped from the model. -/
inductive LookupError where
  | InvalidHostTarget
  | ConnectionFailed
  | ErrorResponse (status : Nat)
  | InvalidResponse
  | NotPocketRelay
  | ServerOutdated (got : Version) (required : Version)
deriving DecidableEq

/-- Validation tail of try_lookup_host (src/api.rs lines 116-148), reached
once the HTTP response came back with a success status. scheme and port
are taken from the effective response URL; host is its host portion when
one exists; details is the parsed JSON body (the claim presupposes the
body parses, so the parse failure branch is outside this function).
Mirrors the source order: host check, then ident check (is_none or
is_some_and differing from SERVER_IDENT), then minimum version check. -/
def try_lookup_host (scheme : String) (port : Nat) (host : Option String)
    (details : ServerDetails) : Except LookupError LookupData :=
  match host with
  | none => .error .InvalidHostTarget
  | some host =>
    if details.ident.isNone || details.ident.elim false (fun value => value != SERVER_IDENT) then
      .error .NotPocketRelay
    else if versionLt details.version MIN_SERVER_VERSION then
      .error (.ServerOutdated details.version MIN_SERVER_VERSION)
    else
      .ok { scheme := scheme, host := host, port := port, version := details.version }

/-! ### Redirector service (src/servers/redirector.rs, src/constants.rs) -/

/-- The local proxy main server port (MAIN_PORT in src/constants.rs). -/
def MAIN_PORT : Nat := 42128

/-- One serialised field of the game structured-field encoding, modelling
the TdfWriter tag calls made by LocalInstance encode. -/
inductive TdfValue where
  | union_start (tag : String) (key : Nat)
  | group (tag : String)
  | group_end
  | tag_u32 (tag : String) (value : Nat)
  | tag_u16 (tag : String) (value : Nat)
  | tag_bool (tag : String) (value : Bool)
deriving DecidableEq

/-- u32 from big-endian bytes (u32 from_be_bytes). -/
def u32_from_be_bytes (b0 b1 b2 b3 : Nat) : Nat :=
  ((b0 * 256 + b1) * 256 + b2) * 256 + b3

/-- LocalInstance encode (src/servers/redirector.rs): the address record
payload of the redirector response, an ADDR union holding a VALU group
with the loopback IP as a big-endian u32 and the main port, then the
SECU and XDNS flags both false. -/
def LocalInstance.encode : List TdfValue :=
  [ .union_start "ADDR" 0x0,
    .group "VALU",
    .tag_u32 "IP" (u32_from_be_bytes 127 0 0 1),
    .tag_u16 "PORT" MAIN_PORT,
    .group_end,
    .tag_bool "SECU" false,
    .tag_bool "XDNS" false ]

/-- Redirector-level packet: header plus structured payload fields. -/
structure BlazePacket where
  header : PacketHeader
  payload : List TdfValue
deriving DecidableEq

/-- What the redirector connection loop does after handling one packet:
send the reply and close (break), or send it and keep reading. -/
inductive RedirectorAction where
  | respond_close (reply : BlazePacket)
  | respond_continue (reply : BlazePacket)
deriving DecidableEq

/-- Components from_header (derived in src/servers/redirector.rs): the
only known component/command pair is Redirector GetServerInstance,
component 0x5 command 0x1. -/
def Components.from_header (h : PacketHeader) : Option Unit :=
  if h.component == 0x5 && h.command == 0x1 then some () else none

/-- Modelled from the spec: the packet library used by the redirector
(respond and respond_empty of the external blaze packet crate, not part
of this repository) builds the reply header from the request header by
preserving component, command, error and id and setting the type to
Response, exactly as PacketHeader response in src/servers/packet.rs does;
the body of respond is the serialised argument, of respond_empty empty.
Packet dispatch itself follows handle_client (src/servers/redirector.rs
lines 96-106): packets that are not a GetServerInstance request get an
empty response and the loop continues; a GetServerInstance request gets
the LocalInstance record and the loop breaks, closing the connection. -/
def handle_packet (p : BlazePacket) : RedirectorAction :=
  match Components.from_header p.header with
  | none => .respond_continue { header := p.header.response, payload := [] }
  | some _ => .respond_close { header := p.header.response, payload := LocalInstance.encode }

/-! ### HTTP proxy dispatch (src/servers/http.rs) -/

/-- Outcome of the outbound GET issued by proxy_request: a response with
some status, or a client error. -/
inductive ProxyOutcome where
  | ok (status : Nat)
  | err
deriving DecidableEq

/-- Status dispatch of proxy_http (src/servers/http.rs): target is the
published Target base URL when one exists, joined the result of joining
it with the request path and query, outcome the result of the outbound
GET. No target and a failed join both yield 503; an outbound client error
yields 500; otherwise the upstream status is copied back. -/
def proxy_http (target : Option String) (joined : Option String)
    (outcome : ProxyOutcome) : Nat :=
  match target with
  | none => 503
  | some _ =>
    match joined with
    | none => 503
    | some _ =>
      match outcome with
      | .err => 500
      | .ok status => status

/-- Read-path condition under which public_address enters the refresh
path: the cache is unset, or the current time has reached the expiry
instant (the negation of the read check in src/servers/qos.rs line 103). -/
def cache_expired (cache : PublicAddrCache) (now : Nat) : Bool :=
  match cache with
  | .Unset => true
  | .Set _ expires => !(now < expires)

/-! ### Theorems -/

/-- Claim C8: for every HTTP request handled by the proxy service, the
absence of a published Target yields status 503 Service Unavailable, and
a Target with a successfully joined URL whose outbound GET fails with a
client error yields status 500 Internal Server Error. -/
theorem proxy_http_status (target joined : Option String) (outcome : ProxyOutcome) :
    (target = none → proxy_http target joined outcome = 503)
    ∧ (∀ t u, target = some t → joined = some u → outcome = .err →
        proxy_http target joined outcome = 500) := by
  constructor
  · intro h
    subst h
    rfl
  · intro t u ht hu ho
    subst ht
    subst hu
    subst ho
    rfl

/-- Witness for C8: with a published target whose outbound GET fails, the
proxy answers 500. -/
theorem proxy_http_status_witness :
    proxy_http (some "http://ex.test/") (some "http://ex.test/p") .err = 500 :=
  (proxy_http_status (some "http://ex.test/") (some "http://ex.test/p") .err).2
    "http://ex.test/" "http://ex.test/p" rfl rfl rfl

/-- Claim C3: a decoded packet with component 0x0005 and command 0x0001
makes the redirector reply with a packet keeping component, command,
error and id, type set to Response, whose payload is the address record
with IP 127.0.0.1 (big-endian u32 2130706433), port 42128 (the main
port), secure false and dns false; the connection is then closed. -/
theorem redirector_get_server_instance (p : BlazePacket)
    (hc : p.header.component = 0x5) (hd : p.header.command = 0x1) :
    handle_packet p = .respond_close
      { header := { component := p.header.component, command := p.header.command,
                    error := p.header.error, ty := .Response, id := p.header.id },
        payload := LocalInstance.encode }
    ∧ TdfValue.tag_u32 "IP" (u32_from_be_bytes 127 0 0 1) ∈ LocalInstance.encode
    ∧ u32_from_be_bytes 127 0 0 1 = 2130706433
    ∧ TdfValue.tag_u16 "PORT" MAIN_PORT ∈ LocalInstance.encode
    ∧ MAIN_PORT = 42128
    ∧ TdfValue.tag_bool "SECU" false ∈ LocalInstance.encode
    ∧ TdfValue.tag_bool "XDNS" false ∈ LocalInstance.encode := by
  refine ⟨?_, by decide, by decide, by decide, by decide, by decide, by decide⟩
  simp [handle_packet, Components.from_header, hc, hd, PacketHeader.response,
    PacketHeader.with_type]

/-- Witness for C3: the concrete GetServerInstance request of scenario S4
(component 0x5, command 0x1, id 42) gets the LocalInstance response with
the same id and the connection closes. -/
theorem redirector_get_server_instance_witness :
    handle_packet { header := { component := 0x5, command := 0x1, error := 0,
                                ty := .Request, id := 42 }, payload := [] }
      = .respond_close
        { header := { component := 0x5, command := 0x1, error := 0,
                      ty := .Response, id := 42 },
          payload := LocalInstance.encode } :=
  (redirector_get_server_instance
    { header := { component := 0x5, command := 0x1, error := 0, ty := .Request, id := 42 },
      payload := [] } rfl rfl).1

/-- Counterexample for C5: a successful refresh stores the value with
expiry now plus ADDR_CACHE_TIME = 1800 seconds, which is 30 minutes and
not the 2 hours (7200 seconds) the claim states. -/
theorem public_address_ttl_counterexample :
    public_address .Unset 0 [some ⟨1, 2, 3, 4⟩] none 5
      = (some ⟨1, 2, 3, 4⟩, .Set ⟨1, 2, 3, 4⟩ (5 + 1800))
    ∧ ADDR_CACHE_TIME = 1800
    ∧ (1800 : Nat) ≠ 2 * 60 * 60 := by decide

/-- Helper: whenever the refresh path of public_address resolves a value,
the cache it leaves behind is that value with expiry now2 + 30 minutes. -/
theorem public_address_refresh_sets (cache : PublicAddrCache)
    (probes : List (Option Ipv4Addr)) (local_ip : Option Ipv4Addr) (now2 : Nat)
    (v : Ipv4Addr) (cache2 : PublicAddrCache)
    (h : public_address_refresh cache probes local_ip now2 = (some v, cache2)) :
    cache2 = .Set v (now2 + 30 * 60) := by
  unfold public_address_refresh at h
  cases hfp : first_probe probes with
  | some w =>
    simp [hfp] at h
    obtain ⟨h1, h2⟩ := h
    subst h1
    rw [← h2]
    rfl
  | none =>
    cases local_ip with
    | none => simp [hfp] at h
    | some w =>
      simp [hfp] at h
      obtain ⟨h1, h2⟩ := h
      subst h1
      rw [← h2]
      rfl

/-- Claim C5 (amended): whenever public_address obtains an IPv4 value on
the refresh path (cache unset or expired), it stores that value with an
expiry equal to the store-time clock reading plus 30 minutes, not the 2
hours of the claim. -/
theorem public_address_cache_ttl (cache : PublicAddrCache) (now : Nat)
    (probes : List (Option Ipv4Addr)) (local_ip : Option Ipv4Addr) (now2 : Nat)
    (v : Ipv4Addr) (cache2 : PublicAddrCache)
    (hexp : cache_expired cache now = true)
    (h : public_address cache now probes local_ip now2 = (some v, cache2)) :
    cache2 = .Set v (now2 + 30 * 60) := by
  cases cache with
  | Unset => exact public_address_refresh_sets _ probes local_ip now2 v cache2 h
  | Set value expires =>
    unfold cache_expired at hexp
    simp at hexp
    simp only [public_address] at h
    rw [if_neg (by omega)] at h
    exact public_address_refresh_sets _ probes local_ip now2 v cache2 h

/-- Witness for C5: a concrete refresh from the unset cache stores the
probed value with a 1800-second expiry offset. -/
theorem public_address_cache_ttl_witness :
    PublicAddrCache.Set ⟨1, 2, 3, 4⟩ (5 + 1800) = .Set ⟨1, 2, 3, 4⟩ (5 + 30 * 60) :=
  public_address_cache_ttl .Unset 0 [some ⟨1, 2, 3, 4⟩] none 5 ⟨1, 2, 3, 4⟩
    (.Set ⟨1, 2, 3, 4⟩ (5 + 1800)) rfl (by decide)

/-- Counterexample for C6: a loopback peer whose public-address resolution
fails is not skipped; get_address returns the peer address itself, so a
reply is still sent. -/
theorem qos_address_counterexample :
    get_address none (IpAddr.V4 ⟨127, 0, 0, 1⟩) = some ⟨127, 0, 0, 1⟩
    ∧ get_address none (IpAddr.V4 ⟨127, 0, 0, 1⟩) ≠ none := by decide

/-- Claim C6 (amended): for a loopback or RFC1918 private IPv4 peer the
advertised address is the public_address value whenever that resolution
succeeds; when it fails the peer address itself is advertised and the
datagram is still answered. A datagram is skipped (get_address none)
exactly when the peer is not IPv4. -/
theorem qos_address_resolution (public_addr : Option Ipv4Addr) (value : Ipv4Addr)
    (hlp : (value.is_loopback || value.is_private) = true) :
    (∀ p, public_addr = some p → get_address public_addr (.V4 value) = some p)
    ∧ (public_addr = none → get_address public_addr (.V4 value) = some value)
    ∧ get_address public_addr (.V4 value) ≠ none
    ∧ (∀ pa, get_address pa .V6 = none) := by
  refine ⟨?_, ?_, ?_, fun _ => rfl⟩
  · intro p hp
    subst hp
    simp [get_address, hlp]
  · intro hp
    subst hp
    simp [get_address, hlp]
  · cases public_addr <;> simp [get_address, hlp]

/-- Witness for C6: a loopback peer with a successfully resolved public
address gets that public address advertised. -/
theorem qos_address_resolution_witness :
    get_address (some ⟨9, 8, 7, 6⟩) (.V4 ⟨127, 0, 0, 1⟩) = some ⟨9, 8, 7, 6⟩ :=
  (qos_address_resolution (some ⟨9, 8, 7, 6⟩) ⟨127, 0, 0, 1⟩ rfl).1 ⟨9, 8, 7, 6⟩ rfl

/-- Counterexample for C2: a 1-byte request gets a 30-byte reply, not the
1 + 10 = 11 bytes the claim states; the code always reads into a 20-byte
scratch buffer and always sends 30 bytes. -/
theorem qos_reply_shape_counterexample :
    ((qos_handle (List.replicate 20 0) [7] ⟨1, 2, 3, 4⟩ 55555).1).length = 30
    ∧ (30 : Nat) ≠ 1 + 10 := by decide

/-- Claim C2 (amended): for every datagram of length N with 1 <= N <= 64
whose advertised address resolved, the reply has length exactly 30; its
first 20 bytes are the scratch buffer after the receive, that is the
first min(N, 20) request bytes followed by residue of the previous buffer
contents; in particular the first min(N, 20) reply bytes equal the first
min(N, 20) request bytes; bytes 20 to 23 are the advertised IPv4 octets,
bytes 24 and 25 the peer port big-endian, bytes 26 to 29 zero. -/
theorem qos_reply_shape (buffer request : List Nat) (address : Ipv4Addr) (port : Nat)
    (hbuf : buffer.length = 20) (hlo : 1 ≤ request.length) (hhi : request.length ≤ 64) :
    ((qos_handle buffer request address port).1).length = 30
    ∧ ((qos_handle buffer request address port).1).take 20
        = request.take 20 ++ buffer.drop (min request.length 20)
    ∧ ((qos_handle buffer request address port).1).take (min request.length 20)
        = request.take 20
    ∧ ((qos_handle buffer request address port).1).drop 20
        = address.octets ++ u16_be port ++ [0, 0, 0, 0] := by
  have hb2 : (request.take 20 ++ buffer.drop (min request.length 20)).length = 20 := by
    simp [List.length_append, List.length_take, List.length_drop, hbuf]
    omega
  have hq : (qos_handle buffer request address port).1
      = (request.take 20 ++ buffer.drop (min request.length 20))
        ++ (address.octets ++ (u16_be port ++ [0, 0, 0, 0])) := by
    show List.take 20 request ++ List.drop (min request.length 20) buffer ++ address.octets
        ++ u16_be port ++ [0, 0, 0, 0] = _
    rw [List.append_assoc, List.append_assoc]
  refine ⟨?_, ?_, ?_, ?_⟩
  · rw [hq, List.length_append, hb2]
    simp [Ipv4Addr.octets, u16_be]
  · rw [hq, List.take_left' hb2]
  · have htk : (request.take 20).length = min request.length 20 := by
      rw [List.length_take, Nat.min_comm]
    rw [hq, List.append_assoc, List.take_left' htk]
  · rw [hq, List.drop_left' hb2, List.append_assoc]

/-- Witness for C2 (amended): the 1-byte request 7 from port 55555 against
a zeroed scratch buffer; the reply keeps the request byte first, then 19
residual zeros, the advertised address 1.2.3.4, the port bytes and the
zero tail. -/
theorem qos_reply_shape_witness :
    ((qos_handle (List.replicate 20 0) [7] ⟨1, 2, 3, 4⟩ 55555).1).take
        (min (List.length [7]) 20) = List.take 20 [7] :=
  (qos_reply_shape (List.replicate 20 0) [7] ⟨1, 2, 3, 4⟩ 55555
    (by decide) (by decide) (by decide)).2.2.1

/-- Claim C4: once the lookup response has a success status, a parsed JSON
body and an effective URL with a host, the validation returns
NotPocketRelay exactly when the ident field is missing or differs from
POCKET_RELAY_SERVER, returns ServerOutdated got required with required
0.5.0 exactly when the ident is valid and the version orders below 0.5.0,
and otherwise succeeds carrying that version. -/
theorem lookup_validation (scheme : String) (port : Nat) (hst : String)
    (details : ServerDetails) :
    (try_lookup_host scheme port (some hst) details = .error .NotPocketRelay
      ↔ details.ident = none ∨ ∃ v, details.ident = some v ∧ v ≠ SERVER_IDENT)
    ∧ (∀ got required,
        try_lookup_host scheme port (some hst) details
            = .error (.ServerOutdated got required)
          ↔ details.ident = some SERVER_IDENT
            ∧ versionLt details.version MIN_SERVER_VERSION = true
            ∧ got = details.version
            ∧ required = { major := 0, minor := 5, patch := 0, pre := [] })
    ∧ (details.ident = some SERVER_IDENT →
        versionLt details.version MIN_SERVER_VERSION = false →
        try_lookup_host scheme port (some hst) details
          = .ok { scheme := scheme, host := hst, port := port,
                  version := details.version }) := by
  obtain ⟨ver, ident⟩ := details
  dsimp only
  cases ident with
  | none =>
    have hrun : try_lookup_host scheme port (some hst) { version := ver, ident := none }
        = .error .NotPocketRelay := by
      simp [try_lookup_host]
    refine ⟨by rw [hrun]; simp, fun got required => by rw [hrun]; simp, fun h => by cases h⟩
  | some v =>
    by_cases hv : v = SERVER_IDENT
    · subst hv
      cases hlt : versionLt ver MIN_SERVER_VERSION with
      | true =>
        have hrun : try_lookup_host scheme port (some hst)
            { version := ver, ident := some SERVER_IDENT }
            = .error (.ServerOutdated ver MIN_SERVER_VERSION) := by
          simp [try_lookup_host, hlt]
        refine ⟨?_, fun got required => ?_, ?_⟩
        · rw [hrun]
          simp
        · rw [hrun]
          constructor
          · intro heq
            simp only [Except.error.injEq, LookupError.ServerOutdated.injEq] at heq
            exact ⟨rfl, rfl, heq.1.symm, heq.2.symm.trans rfl⟩
          · rintro ⟨-, -, h3, h4⟩
            subst h3
            subst h4
            rfl
        · intro _ hfalse
          simp at hfalse
      | false =>
        have hrun : try_lookup_host scheme port (some hst)
            { version := ver, ident := some SERVER_IDENT }
            = .ok { scheme := scheme, host := hst, port := port, version := ver } := by
          simp [try_lookup_host, hlt]
        refine ⟨?_, fun got required => ?_, ?_⟩
        · rw [hrun]
          simp
        · rw [hrun]
          simp [hlt]
        · intro _ _
          exact hrun
    · have hrun : try_lookup_host scheme port (some hst) { version := ver, ident := some v }
          = .error .NotPocketRelay := by
        simp [try_lookup_host, bne_iff_ne, hv]
      refine ⟨?_, fun got required => ?_, ?_⟩
      · rw [hrun]
        simp [hv]
      · rw [hrun]
        simp [hv]
      · intro hcontra _
        exact absurd (Option.some.inj hcontra) hv

/-- Witness for C4: scenario S1, a server answering with version 0.5.0
and the correct identifier validates successfully. -/
theorem lookup_validation_witness :
    try_lookup_host "http" 80 (some "ex.test")
        { version := { major := 0, minor := 5, patch := 0, pre := [] },
          ident := some SERVER_IDENT }
      = .ok { scheme := "http", host := "ex.test", port := 80,
              version := { major := 0, minor := 5, patch := 0, pre := [] } } :=
  (lookup_validation "http" 80 "ex.test"
    { version := { major := 0, minor := 5, patch := 0, pre := [] },
      ident := some SERVER_IDENT }).2.2 rfl (by decide)

/-- Helper: the per-byte cipher step is self-inverse on bytes below 0x80,
for every key byte: masking to the low 7 bits commutes with the xor. -/
theorem xor_mod_invol (d k : Nat) (hd : d < 0x80) :
    ((d ^^^ k) % 0x80 ^^^ k) % 0x80 = d := by
  have h128 : (0x80 : Nat) = 2 ^ 7 := by norm_num
  rw [h128] at hd ⊢
  apply Nat.eq_of_testBit_eq
  intro j
  rcases lt_or_ge j 7 with hj | hj
  · rw [Nat.testBit_mod_two_pow, Nat.testBit_xor, Nat.testBit_mod_two_pow, Nat.testBit_xor]
    simp only [hj, decide_True, Bool.true_and]
    cases hdj : d.testBit j <;> cases hkj : k.testBit j <;> simp
  · rw [Nat.testBit_mod_two_pow]
    have hdj : d.testBit j = false :=
      Nat.testBit_lt_two_pow (lt_of_lt_of_le hd (Nat.pow_le_pow_right (by norm_num) hj))
    simp [Nat.not_lt.mpr hj, hdj]

/-- Helper: applying the cipher loop twice with the same nonempty key and
the same remaining-key position restores any input whose bytes are all
below 0x80. -/
theorem xor_cipher_go_invol (k0 : Nat) (kt : List Nat) (m rem : List Nat)
    (hm : ∀ b ∈ m, b < 0x80) :
    xor_cipher_go (xor_cipher_go m rem (k0 :: kt)) rem (k0 :: kt) = m := by
  induction m generalizing rem with
  | nil => rfl
  | cons d ds ih =>
    have hd : d < 0x80 := hm d (List.mem_cons_self _ _)
    have hds : ∀ b ∈ ds, b < 0x80 := fun b hb => hm b (List.mem_cons_of_mem _ hb)
    cases rem with
    | nil =>
      show (((d ^^^ k0) % 0x80 ^^^ k0) % 0x80)
          :: xor_cipher_go (xor_cipher_go ds kt (k0 :: kt)) kt (k0 :: kt) = d :: ds
      rw [xor_mod_invol d k0 hd, ih kt hds]
    | cons k ks =>
      show (((d ^^^ k) % 0x80 ^^^ k) % 0x80)
          :: xor_cipher_go (xor_cipher_go ds ks (k0 :: kt)) ks (k0 :: kt) = d :: ds
      rw [xor_mod_invol d k hd, ih ks hds]

/-- Counterexample for C7: with the empty key the cycled key iterator
yields nothing, so the cipher returns the empty list and the double
application of a nonempty low-byte message is not the identity. -/
theorem xor_cipher_involution_counterexample :
    xor_cipher (xor_cipher [1] []) [] = []
    ∧ xor_cipher (xor_cipher [1] []) [] ≠ [1] := by decide

/-- Claim C7 (amended): for every nonempty key and every message whose
bytes are all strictly below 0x80, applying xor_cipher twice with that
key is the identity. -/
theorem xor_cipher_involution (key m : List Nat) (hkey : key ≠ [])
    (hm : ∀ b ∈ m, b < 0x80) :
    xor_cipher (xor_cipher m key) key = m := by
  cases key with
  | nil => exact absurd rfl hkey
  | cons k0 kt => exact xor_cipher_go_invol k0 kt m (k0 :: kt) hm

/-- Witness for C7 (amended): a concrete one-byte message and key. -/
theorem xor_cipher_involution_witness :
    xor_cipher (xor_cipher [0x41] [0x35]) [0x35] = [0x41] :=
  xor_cipher_involution [0x35] [0x41] (by decide) (by decide)

/-- Helper: every byte emitted by the cipher loop is below 0x80, since
each output byte is reduced modulo 0x80. -/
theorem xor_cipher_go_lt (m : List Nat) :
    ∀ rem key : List Nat, ∀ b ∈ xor_cipher_go m rem key, b < 0x80 := by
  induction m with
  | nil =>
    intro rem key b hb
    simp [xor_cipher_go] at hb
  | cons d ds ih =>
    intro rem key b hb
    cases rem with
    | cons k ks =>
      rcases List.mem_cons.1 hb with hb1 | hb2
      · subst hb1
        exact Nat.mod_lt _ (by norm_num)
      · exact ih ks key b hb2
    | nil =>
      cases key with
      | nil => simp [xor_cipher_go] at hb
      | cons k ks =>
        rcases List.mem_cons.1 hb with hb1 | hb2
        · subst hb1
          exact Nat.mod_lt _ (by norm_num)
        · exact ih ks (k :: ks) b hb2

/-- Claim C10: for every input slice and every key, every byte produced
by xor_cipher is strictly below 0x80; hence the byte vector tlm3 hands to
the unchecked UTF-8 conversion, namely the cipher of the part of the
value after the first dash under TLM3_KEY, is pure ASCII and therefore
valid UTF-8. -/
theorem xor_cipher_ascii (input key : List Nat) :
    valid_ascii (xor_cipher input key)
    ∧ (∀ body, tlm3_body input = some body → valid_ascii (xor_cipher body TLM3_KEY)) := by
  constructor
  · exact xor_cipher_go_lt input key key
  · intro body _
    exact xor_cipher_go_lt body TLM3_KEY TLM3_KEY

/-- Witness for C10: the cipher output of a concrete high-byte input is
pure ASCII. -/
theorem xor_cipher_ascii_witness :
    valid_ascii (xor_cipher [0xFF, 0x80, 0x00] [0xAB]) :=
  (xor_cipher_ascii [0xFF, 0x80, 0x00] [0xAB]).1

/-- Example packet with an extended-length payload: 65536 zero bytes. -/
def ext_packet : Packet :=
  { header := { component := 1, command := 2, error := 0, ty := .Request, id := 3 },
    contents := List.replicate 65536 0 }

/-- Claim C1 (code bug evaluation): encoding ext_packet produces the
14-byte extended header followed by the payload, so the encoded length is
12 + 2 + 65536 as the claim states; but decoding it back yields a packet
whose payload is the single byte 0 with 65535 payload bytes left over,
because PacketHeader read adds the extended quantity without shifting it
left by 16 bits, so the round trip of the claim fails. -/
theorem packet_extended_roundtrip_bug :
    (Packet.write ext_packet).length = 12 + 2 + 65536
    ∧ Packet.read (Packet.write ext_packet)
        = some ({ header := ext_packet.header, contents := [0] }, List.replicate 65535 0)
    ∧ ({ header := ext_packet.header, contents := [0] } : Packet) ≠ ext_packet := by
  have hw : Packet.write ext_packet
      = 0 :: 0 :: 0 :: 1 :: 0 :: 2 :: 0 :: 0 :: 0 :: 16 :: 0 :: 3 :: 0 :: 1
        :: List.replicate 65536 0 := by
    show PacketHeader.write _ (List.replicate 65536 (0 : Nat)).length
        ++ List.replicate 65536 0 = _
    rw [List.length_replicate]
    rw [show PacketHeader.write ext_packet.header 65536
          = [0, 0, 0, 1, 0, 2, 0, 0, 0, 16, 0, 3, 0, 1] from by decide]
    rfl
  have hread : Packet.read (0 :: 0 :: 0 :: 1 :: 0 :: 2 :: 0 :: 0 :: 0 :: 16 :: 0 :: 3 :: 0 :: 1
        :: List.replicate 65536 0)
      = (if (List.replicate 65536 (0 : Nat)).length < 1 then none
         else some ({ header := ext_packet.header,
                      contents := (List.replicate 65536 (0 : Nat)).take 1 },
                    (List.replicate 65536 (0 : Nat)).drop 1)) := rfl
  refine ⟨?_, ?_, ?_⟩
  · rw [hw]
    rw [List.length_cons, List.length_cons, List.length_cons, List.length_cons,
      List.length_cons, List.length_cons, List.length_cons, List.length_cons,
      List.length_cons, List.length_cons, List.length_cons, List.length_cons,
      List.length_cons, List.length_cons, List.length_replicate]
  · rw [hw, hread, List.length_replicate, if_neg (by norm_num),
      List.take_replicate, List.drop_replicate,
      show min 1 65536 = 1 from rfl,
      show List.replicate 1 (0 : Nat) = [0] from rfl,
      show (65536 - 1 : Nat) = 65535 from rfl]
  · intro hcontra
    have hlen := congrArg (fun q : Packet => q.contents.length) hcontra
    simp only [ext_packet, List.length_cons, List.length_nil, List.length_replicate] at hlen
    omega

/-- Helper: a successful header parse consumed exactly the 12 header
bytes, or 14 when the extended flag was set; the remainder is returned
untouched. -/
theorem header_read_consumed (src : List Nat) (h : PacketHeader) (len : Nat)
    (rest : List Nat) (heq : PacketHeader.read src = some ((h, len), rest)) :
    ∃ hdr : List Nat, src = hdr ++ rest ∧ (hdr.length = 12 ∨ hdr.length = 14) := by
  unfold PacketHeader.read at heq
  split at heq
  case h_1 l0 l1 c0 c1 d0 d1 e0 e1 t x i0 i1 rest0 =>
    split at heq
    · split at heq
      case isTrue.h_1 h0 h1 rest2 =>
        simp only [Option.some.injEq, Prod.mk.injEq] at heq
        obtain ⟨-, hrest⟩ := heq
        subst hrest
        exact ⟨[l0, l1, c0, c1, d0, d1, e0, e1, t, x, i0, i1, h0, h1], rfl, Or.inr rfl⟩
      case isTrue.h_2 =>
        exact absurd heq (by simp)
    · simp only [Option.some.injEq, Prod.mk.injEq] at heq
      obtain ⟨-, hrest⟩ := heq
      subst hrest
      exact ⟨[l0, l1, c0, c1, d0, d1, e0, e1, t, x, i0, i1], rfl, Or.inl rfl⟩
  case h_2 =>
    exact absurd heq (by simp)

/-- Helper: a successful packet parse consumed exactly the header bytes
followed by the bytes that became the packet payload; the remainder is
returned untouched. -/
theorem packet_read_consumed (src : List Nat) (p : Packet) (rest : List Nat)
    (heq : Packet.read src = some (p, rest)) :
    ∃ hdr : List Nat, src = hdr ++ p.contents ++ rest
      ∧ (hdr.length = 12 ∨ hdr.length = 14) := by
  unfold Packet.read at heq
  split at heq
  · exact Option.noConfusion heq
  · rename_i header length rest1 hh
    split at heq
    · exact Option.noConfusion heq
    · simp only [Option.some.injEq, Prod.mk.injEq] at heq
      obtain ⟨hp, hrest⟩ := heq
      obtain ⟨hdr, hsrc, hlen⟩ := header_read_consumed src header length rest1 hh
      refine ⟨hdr, ?_, hlen⟩
      rw [hsrc, ← hp, ← hrest]
      rw [List.append_assoc]
      exact congrArg (hdr ++ ·) (List.take_append_drop length rest1).symm

/-- Claim C9: the codec decode step always returns Ok; when it emits no
packet the buffer is unchanged; when it emits a packet, the original
buffer was exactly the frame header (12 bytes, or 14 with the extended
flag) followed by the packet payload followed by the returned remainder,
so exactly the frame bytes were consumed. -/
theorem packet_codec_decode_exact (src : List Nat) :
    ∃ out rest, PacketCodec.decode src = .ok (out, rest)
    ∧ (out = none → rest = src)
    ∧ (∀ p, out = some p →
        ∃ hdr : List Nat, src = hdr ++ p.contents ++ rest
          ∧ (hdr.length = 12 ∨ hdr.length = 14)) := by
  unfold PacketCodec.decode
  cases hr : Packet.read src with
  | none =>
    exact ⟨none, src, rfl, fun _ => rfl, fun p hp => absurd hp (by simp)⟩
  | some pr =>
    obtain ⟨p, rest⟩ := pr
    refine ⟨some p, rest, rfl, by simp, ?_⟩
    intro q hq
    obtain rfl : p = q := by injection hq
    exact packet_read_consumed src p rest hr

/-- Witness for C9: a concrete 13-byte buffer holding a 12-byte frame
with a zero-length payload followed by one extra byte. -/
theorem packet_codec_decode_exact_witness :
    ∃ out rest,
      PacketCodec.decode [0, 0, 0, 5, 0, 1, 0, 0, 0, 0, 0, 42, 9] = .ok (out, rest)
      ∧ (out = none → rest = [0, 0, 0, 5, 0, 1, 0, 0, 0, 0, 0, 42, 9])
      ∧ (∀ p, out = some p →
          ∃ hdr : List Nat,
            [0, 0, 0, 5, 0, 1, 0, 0, 0, 0, 0, 42, 9] = hdr ++ p.contents ++ rest
            ∧ (hdr.length = 12 ∨ hdr.length = 14)) :=
  packet_codec_decode_exact [0, 0, 0, 5, 0, 1, 0, 0, 0, 0, 0, 42, 9]

end PocketRelay
